import Mathlib

/-!
Verification of `webassembly-js-api.d.ts` (src/index.d.ts).

The repository is a single ambient TypeScript declaration file that declares
the `WebAssembly` namespace twice (lines 11-219 and lines 231-311).  We embed
the declaration surface as data: a small AST of TypeScript ambient
declarations (types, interface/class members, declarations), and the two
namespace bodies `nsA` and `nsB` transcribed declaration by declaration from
the source file.  The AST keeps room for function bodies and field
initializers (`Option String`), so that the absence of executable code is a
provable property of the data rather than an artifact of the embedding.

The behavioral claims (growth returning the previous size, fresh tables
being all-`null`) concern the host engine, whose code is not in the
repository; those parts are modelled from the spec and the declaration
doc comments, in clearly marked definitions below.
-/

/-- A TypeScript type expression, as it appears in the declaration file.
`ref` is a type reference by name (`Module`, `string`, `BufferSource`, ...);
`strLit` is a string literal type; `arr` is `T[]`; `app` is a one-argument
generic application such as `Promise<T>`; `union` is `A | B`; `fn1` is a
single-parameter function type `(p: dom) => ret`. -/
inductive Ty where
  | ref (name : String)
  | strLit (s : String)
  | arr (t : Ty)
  | app (name : String) (arg : Ty)
  | union (a b : Ty)
  | fn1 (pname : String) (dom ret : Ty)
deriving DecidableEq, Repr

/-- A parameter of a function, method, or constructor declaration. -/
structure Param where
  name : String
  ty : Ty
  opt : Bool
deriving DecidableEq, Repr

/-- A member of an interface or class declaration.  `field` carries an
optional initializer and `method`/`ctor` an optional body so that the
(bodiless) ambient nature of the source is visible in the data. -/
inductive Member where
  | field (name : String) (ty : Ty) (opt : Bool) (ro : Bool) (init : Option String)
  | method (static : Bool) (name : String) (params : List Param) (ret : Ty)
      (body : Option String)
  | ctor (params : List Param) (body : Option String)
deriving DecidableEq, Repr

/-- A top-level declaration inside the `declare namespace WebAssembly` block.
`parent` is the name after `extends`, when present. -/
inductive Decl where
  | iface (name : String) (parent : Option String) (members : List Member)
  | cls (name : String) (parent : Option String) (members : List Member)
  | alias (name : String) (ty : Ty)
  | fdecl (name : String) (params : List Param) (ret : Ty) (body : Option String)
deriving DecidableEq, Repr

/-- The declared name of a declaration. -/
def Decl.name : Decl → String
  | .iface n _ _ => n
  | .cls n _ _ => n
  | .alias n _ => n
  | .fdecl n _ _ _ => n

/-- The function type `(args: any[]) => any` used by the `AnyFunc` alias. -/
def anyFnTy : Ty := Ty.fn1 "args" (Ty.arr (Ty.ref "any")) (Ty.ref "any")

/-- The union type `ArrayBuffer | Uint8Array` used by the second namespace
copy for binary module sources. -/
def abU8 : Ty := Ty.union (Ty.ref "ArrayBuffer") (Ty.ref "Uint8Array")

/-- The union type `Response | Promise<Response>` accepted by the streaming
functions of the first namespace copy. -/
def respSrc : Ty := Ty.union (Ty.ref "Response") (Ty.app "Promise" (Ty.ref "Response"))

/-- First copy of the `WebAssembly` namespace, src/index.d.ts lines 11-219,
transcribed declaration by declaration. -/
def nsA : List Decl := [
  Decl.iface "ModuleExport" none [
    Member.field "name" (Ty.ref "string") false false none,
    Member.field "kind" (Ty.ref "string") false false none],
  Decl.iface "ModuleImport" (some "ModuleExport") [
    Member.field "module" (Ty.ref "string") false false none],
  Decl.cls "Module" none [
    Member.ctor [⟨"bufferSource", Ty.ref "BufferSource", false⟩] none,
    Member.method true "customSections"
      [⟨"module", Ty.ref "Module", false⟩, ⟨"sectionName", Ty.ref "string", false⟩]
      (Ty.arr (Ty.ref "ArrayBuffer")) none,
    Member.method true "exports" [⟨"module", Ty.ref "Module", false⟩]
      (Ty.arr (Ty.ref "ModuleExport")) none,
    Member.method true "imports" [⟨"module", Ty.ref "Module", false⟩]
      (Ty.arr (Ty.ref "ModuleImport")) none],
  Decl.cls "Instance" none [
    Member.field "exports" (Ty.ref "any") false true none,
    Member.ctor [⟨"module", Ty.ref "Module", false⟩, ⟨"importObject", Ty.ref "any", true⟩] none],
  Decl.iface "MemoryDescriptor" none [
    Member.field "initial" (Ty.ref "number") false false none,
    Member.field "maximum" (Ty.ref "number") true false none],
  Decl.cls "Memory" none [
    Member.field "buffer" (Ty.ref "ArrayBuffer") false true none,
    Member.ctor [⟨"memoryDescriptor", Ty.ref "MemoryDescriptor", false⟩] none,
    Member.method false "grow" [⟨"numPages", Ty.ref "number", false⟩]
      (Ty.ref "number") none],
  Decl.iface "TableDescriptor" (some "MemoryDescriptor") [
    Member.field "element" (Ty.strLit "anyfunc") false false none],
  Decl.alias "AnyFunc" (Ty.union anyFnTy (Ty.ref "null")),
  Decl.cls "Table" none [
    Member.field "length" (Ty.ref "number") false true none,
    Member.ctor [⟨"tableDescriptor", Ty.ref "TableDescriptor", false⟩] none,
    Member.method false "get" [⟨"index", Ty.ref "number", false⟩]
      (Ty.ref "AnyFunc") none,
    Member.method false "grow" [⟨"numElements", Ty.ref "number", false⟩]
      (Ty.ref "number") none,
    Member.method false "set"
      [⟨"index", Ty.ref "number", false⟩, ⟨"value", Ty.ref "AnyFunc", false⟩]
      (Ty.ref "void") none],
  Decl.cls "CompileError" (some "Error") [],
  Decl.cls "LinkError" (some "Error") [],
  Decl.cls "RuntimeError" (some "Error") [],
  Decl.fdecl "compile" [⟨"bufferSource", Ty.ref "BufferSource", false⟩]
    (Ty.app "Promise" (Ty.ref "Module")) none,
  Decl.fdecl "compileStreaming" [⟨"source", respSrc, false⟩]
    (Ty.app "Promise" (Ty.ref "Module")) none,
  Decl.iface "ResultObject" none [
    Member.field "module" (Ty.ref "Module") false false none,
    Member.field "instance" (Ty.ref "Instance") false false none],
  Decl.fdecl "instantiate"
    [⟨"bufferSource", Ty.ref "BufferSource", false⟩, ⟨"importObject", Ty.ref "any", true⟩]
    (Ty.app "Promise" (Ty.ref "ResultObject")) none,
  Decl.fdecl "instantiate"
    [⟨"module", Ty.ref "Module", false⟩, ⟨"importObject", Ty.ref "any", true⟩]
    (Ty.app "Promise" (Ty.ref "Instance")) none,
  Decl.fdecl "instantiateStreaming"
    [⟨"source", respSrc, false⟩, ⟨"importObject", Ty.ref "any", true⟩]
    (Ty.app "Promise" (Ty.ref "ResultObject")) none,
  Decl.fdecl "validate" [⟨"bufferSource", Ty.ref "BufferSource", false⟩]
    (Ty.ref "boolean") none]

/-- Second copy of the `WebAssembly` namespace, src/index.d.ts lines 231-311,
transcribed declaration by declaration. -/
def nsB : List Decl := [
  Decl.iface "ModuleExport" none [
    Member.field "name" (Ty.ref "string") false false none,
    Member.field "kind" (Ty.ref "string") false false none],
  Decl.iface "ModuleImport" (some "ModuleExport") [
    Member.field "module" (Ty.ref "string") false false none],
  Decl.cls "Module" none [
    Member.ctor [⟨"bufferSource", abU8, false⟩] none,
    Member.method true "customSections"
      [⟨"module", Ty.ref "Module", false⟩, ⟨"sectionName", Ty.ref "string", false⟩]
      (Ty.arr (Ty.ref "ArrayBuffer")) none,
    Member.method true "exports" [⟨"module", Ty.ref "Module", false⟩]
      (Ty.arr (Ty.ref "ModuleExport")) none,
    Member.method true "imports" [⟨"module", Ty.ref "Module", false⟩]
      (Ty.arr (Ty.ref "ModuleImport")) none],
  Decl.cls "Instance" none [
    Member.field "exports" (Ty.ref "any") false true none,
    Member.ctor [⟨"module", Ty.ref "Module", false⟩, ⟨"importObject", Ty.ref "any", true⟩] none],
  Decl.iface "MemoryDescriptor" none [
    Member.field "initial" (Ty.ref "number") false false none,
    Member.field "maximum" (Ty.ref "number") true false none],
  Decl.cls "Memory" none [
    Member.field "buffer" (Ty.ref "ArrayBuffer") false true none,
    Member.ctor [⟨"memoryDescriptor", Ty.ref "MemoryDescriptor", false⟩] none,
    Member.method false "grow" [⟨"numPages", Ty.ref "number", false⟩]
      (Ty.ref "number") none],
  Decl.iface "TableDescriptor" (some "MemoryDescriptor") [
    Member.field "element" (Ty.strLit "anyfunc") false false none],
  Decl.alias "AnyFunc" anyFnTy,
  Decl.cls "Table" none [
    Member.field "length" (Ty.ref "number") false true none,
    Member.ctor [⟨"tableDescriptor", Ty.ref "TableDescriptor", false⟩] none,
    Member.method false "get" [⟨"index", Ty.ref "number", false⟩]
      (Ty.ref "AnyFunc") none,
    Member.method false "grow" [⟨"numElements", Ty.ref "number", false⟩]
      (Ty.ref "number") none,
    Member.method false "set"
      [⟨"index", Ty.ref "number", false⟩, ⟨"value", Ty.ref "AnyFunc", false⟩]
      (Ty.ref "void") none],
  Decl.cls "CompileError" (some "Error") [],
  Decl.cls "LinkError" (some "Error") [],
  Decl.cls "RuntimeError" (some "Error") [],
  Decl.fdecl "compile" [⟨"bufferSource", abU8, false⟩]
    (Ty.app "Promise" (Ty.ref "Module")) none,
  Decl.iface "ResultObject" none [
    Member.field "module" (Ty.ref "Module") false false none,
    Member.field "instance" (Ty.ref "Instance") false false none],
  Decl.fdecl "instantiate"
    [⟨"bufferSource", abU8, false⟩, ⟨"importObject", Ty.ref "any", true⟩]
    (Ty.app "Promise" (Ty.ref "ResultObject")) none,
  Decl.fdecl "instantiate"
    [⟨"module", Ty.ref "Module", false⟩, ⟨"importObject", Ty.ref "any", true⟩]
    (Ty.app "Promise" (Ty.ref "Instance")) none,
  Decl.fdecl "validate" [⟨"bufferSource", abU8, false⟩]
    (Ty.ref "boolean") none]

/-- The whole file: both namespace copies in order. -/
def wholeFile : List Decl := nsA ++ nsB

/-- Whether a list of declarations declares the given name. -/
def declaresName (ns : List Decl) (n : String) : Bool :=
  ns.any (fun d => d.name == n)

/-- The members of an interface or class declaration (empty for aliases and
function declarations). -/
def Decl.membersOf : Decl → List Member
  | .iface _ _ ms => ms
  | .cls _ _ ms => ms
  | _ => []

/-- The `extends` parent of a declaration, when present. -/
def Decl.parentOf : Decl → Option String
  | .iface _ p _ => p
  | .cls _ p _ => p
  | _ => none

/-- The first declaration with the given name. -/
def findDecl (ns : List Decl) (n : String) : Option Decl :=
  ns.find? (fun d => d.name == n)

/-- The (name, type, optional) triple of a field member. -/
def Member.fieldInfo : Member → Option (String × Ty × Bool)
  | .field n t o _ _ => some (n, t, o)
  | _ => none

/-- The fields a declaration itself declares, in order. -/
def ownFields (d : Decl) : List (String × Ty × Bool) :=
  d.membersOf.filterMap Member.fieldInfo

/-- All fields of the named interface, inherited fields of its `extends`
parent first (the inheritance chains in this file have length at most one). -/
def fieldsOf (ns : List Decl) (n : String) : List (String × Ty × Bool) :=
  match findDecl ns n with
  | none => []
  | some d =>
      (match d.parentOf with
       | some p =>
           match findDecl ns p with
           | some pd => ownFields pd
           | none => []
       | none => []) ++ ownFields d

/-- Whether a declaration declares any method. -/
def Decl.hasMethod (d : Decl) : Bool :=
  d.membersOf.any fun m =>
    match m with
    | .method _ _ _ _ _ => true
    | _ => false

/-- Whether a type expression mentions the given type name. -/
def Ty.mentions (n : String) : Ty → Bool
  | .ref m => m == n
  | .strLit _ => false
  | .arr t => t.mentions n
  | .app m t => m == n || t.mentions n
  | .union a b => a.mentions n || b.mentions n
  | .fn1 _ d r => d.mentions n || r.mentions n

/-- Whether a member's parameter or result types mention the given name. -/
def Member.mentions (n : String) : Member → Bool
  | .field _ t _ _ _ => t.mentions n
  | .method _ _ ps r _ => ps.any (fun p => p.ty.mentions n) || r.mentions n
  | .ctor ps _ => ps.any (fun p => p.ty.mentions n)

/-- Whether a declaration's types mention the given name. -/
def Decl.mentions (n : String) : Decl → Bool
  | .iface _ _ ms => ms.any (Member.mentions n)
  | .cls _ _ ms => ms.any (Member.mentions n)
  | .alias _ t => t.mentions n
  | .fdecl _ ps r _ => ps.any (fun p => p.ty.mentions n) || r.mentions n

/-- Names of the declarations whose types mention the given name. -/
def declsMentioning (ns : List Decl) (n : String) : List String :=
  (ns.filter (Decl.mentions n)).map Decl.name

/-- The constructor parameter lists of the named class. -/
def ctorsOf (ns : List Decl) (c : String) : List (List Param) :=
  (((findDecl ns c).map Decl.membersOf).getD []).filterMap fun m =>
    match m with
    | .ctor ps _ => some ps
    | _ => none

/-- The members of class `c` that are methods named `m`. -/
def methodsNamed (ns : List Decl) (c m : String) : List Member :=
  (((findDecl ns c).map Decl.membersOf).getD []).filter fun mem =>
    match mem with
    | .method _ n _ _ _ => n == m
    | _ => false

/-- The class-inheritance pairs (class name, parent name) of a namespace. -/
def classInherits (ns : List Decl) : List (String × String) :=
  ns.filterMap fun d =>
    match d with
    | .cls n (some p) _ => some (n, p)
    | _ => none

/-- The interface-inheritance pairs (interface name, parent name). -/
def ifaceInherits (ns : List Decl) : List (String × String) :=
  ns.filterMap fun d =>
    match d with
    | .iface n (some p) _ => some (n, p)
    | _ => none

/-- Whether the namespace declares an interface with the given name. -/
def isIfaceName (ns : List Decl) (n : String) : Bool :=
  ns.any fun d =>
    match d with
    | .iface m _ _ => m == n
    | _ => false

/-- The (parameters, return type) signatures declared for function name `n`. -/
def fnSigs (ns : List Decl) (n : String) : List (List Param × Ty) :=
  ns.filterMap fun d =>
    match d with
    | .fdecl m ps r _ => if m == n then some (ps, r) else none
    | _ => none

/-- Whether a type is of the form `Promise<...>`. -/
def Ty.isPromise : Ty → Bool
  | .app "Promise" _ => true
  | _ => false

/-- Whether a member carries no initializer and no body, as every member of
an ambient declaration must. -/
def Member.bodiless : Member → Bool
  | .field _ _ _ _ i => i.isNone
  | .method _ _ _ _ b => b.isNone
  | .ctor _ b => b.isNone

/-- Whether a declaration is purely declarative: no member initializer,
no method or constructor body, no function body. -/
def Decl.bodiless : Decl → Bool
  | .iface _ _ ms => ms.all Member.bodiless
  | .cls _ _ ms => ms.all Member.bodiless
  | .alias _ _ => true
  | .fdecl _ _ _ b => b.isNone

/-- Normalization used to compare the two namespace copies: the first copy
spells the binary module source type `BufferSource`, the second spells it
`ArrayBuffer | Uint8Array`; both denote a buffer of module bytes. -/
def normTy : Ty → Ty
  | .union (.ref "ArrayBuffer") (.ref "Uint8Array") => .ref "BufferSource"
  | .union a b => .union (normTy a) (normTy b)
  | .arr t => .arr (normTy t)
  | .app n t => .app n (normTy t)
  | .fn1 p d r => .fn1 p (normTy d) (normTy r)
  | t => t

/-- `normTy` applied to a parameter's type. -/
def normParam (p : Param) : Param :=
  { p with ty := normTy p.ty }

/-- `normTy` applied throughout a member. -/
def normMember : Member → Member
  | .field n t o r i => .field n (normTy t) o r i
  | .method s n ps r b => .method s n (ps.map normParam) (normTy r) b
  | .ctor ps b => .ctor (ps.map normParam) b

/-- `normTy` applied throughout a declaration. -/
def normDecl : Decl → Decl
  | .iface n p ms => .iface n p (ms.map normMember)
  | .cls n p ms => .cls n p (ms.map normMember)
  | .alias n t => .alias n (normTy t)
  | .fdecl n ps r b => .fdecl n (ps.map normParam) (normTy r) b

/-- The value level of a string literal type: the only inhabitants of the
TypeScript type `"s"` are the string `s` itself. -/
def StrLitVal (s : String) : Type := { x : String // x = s }

/-- A value of the declared `TableDescriptor` interface: `initial` pages,
optional `maximum`, and an `element` drawn from the literal type
`"anyfunc"`. -/
structure TableDescriptorVal where
  initial : Nat
  maximum : Option Nat
  element : StrLitVal "anyfunc"

/-- Modelled from the spec: the host-engine state behind `WebAssembly.Memory`
(the declaration file only declares the class; the engine that implements it
is outside the repository).  The state is the current number of allocated
64KiB pages. -/
structure MemoryState where
  pages : Nat
deriving DecidableEq, Repr

/-- Modelled from the spec: `Memory.grow(numPages)` adds `numPages` pages and,
per its declaration comment, returns the previous number of allocated
pages. -/
def MemoryState.grow (m : MemoryState) (numPages : Nat) : Nat × MemoryState :=
  (m.pages, ⟨m.pages + numPages⟩)

/-- Modelled from the spec: the host-engine state behind `WebAssembly.Table`,
a 0-indexed list of slots, each holding either an opaque exported-function
reference (represented by an abstract identifier) or `null` (represented by
`none`). -/
structure TableState where
  elems : List (Option Nat)
deriving DecidableEq, Repr

/-- The `length` property of a table: the number of elements. -/
def TableState.length (t : TableState) : Nat := t.elems.length

/-- Modelled from the spec: `new Table(descriptor)` allocates a table of the
specified initial size, all elements initially `null`. -/
def TableState.new (initial : Nat) : TableState :=
  ⟨List.replicate initial none⟩

/-- Modelled from the spec: `Table.grow(numElements)` appends `numElements`
fresh (`null`) slots and, per its declaration comment, returns the previous
table length. -/
def TableState.grow (t : TableState) (numElements : Nat) : Nat × TableState :=
  (t.elems.length, ⟨t.elems ++ List.replicate numElements none⟩)

/-- Modelled from the spec: `Table.get(index)` returns the element at the
index, `null` (`none`) when the slot is unset. -/
def TableState.get (t : TableState) (i : Nat) : Option Nat :=
  t.elems.getD i none

/-- Modelled from the spec: `Table.set(index, value)` stores the value, which
may be `null` (`none`), at the index. -/
def TableState.set (t : TableState) (i : Nat) (v : Option Nat) : TableState :=
  ⟨t.elems.set i v⟩

/-- C1: the claim as stated is false: the first namespace copy declares
`compileStreaming` (and `instantiateStreaming`), the second copy does not,
so not every declaration of the first copy reappears in the second. -/
theorem C1_counterexample :
    declaresName nsA "compileStreaming" = true ∧
    declaresName nsB "compileStreaming" = false := by
  decide

/-- C1 (amended): the two copies of the `WebAssembly` namespace agree
declaration for declaration, up to exactly three differences: (1) the first
copy spells the binary module source type `BufferSource` where the second
spells it `ArrayBuffer | Uint8Array`; (2) the `AnyFunc` alias of the second
copy omits the `| null` alternative; (3) the first copy declares
`compileStreaming` and `instantiateStreaming`, the second does not. -/
theorem C1_copies_agree_up_to_noted_differences :
    (nsB.filter (fun d => !(d.name == "AnyFunc"))).map normDecl =
      (nsA.filter (fun d => !(d.name == "compileStreaming") &&
        !(d.name == "instantiateStreaming") && !(d.name == "AnyFunc"))).map normDecl ∧
    nsA.filter (fun d => d.name == "AnyFunc") =
      [Decl.alias "AnyFunc" (Ty.union anyFnTy (Ty.ref "null"))] ∧
    nsB.filter (fun d => d.name == "AnyFunc") = [Decl.alias "AnyFunc" anyFnTy] ∧
    declaresName nsA "compileStreaming" = true ∧
    declaresName nsA "instantiateStreaming" = true ∧
    declaresName nsB "compileStreaming" = false ∧
    declaresName nsB "instantiateStreaming" = false := by
  decide

/-- C2: the file is purely declarative: every declaration in both namespace
copies is free of initializers and bodies, and the advertised API surface
(`Module`, `Instance`, `Memory`, `Table`, the compile/instantiate functions
and the three error classes) is declared. -/
theorem C2_pure_declarations :
    wholeFile.all Decl.bodiless = true ∧
    (["Module", "Instance", "Memory", "Table", "compile", "instantiate",
      "compileStreaming", "instantiateStreaming",
      "CompileError", "LinkError", "RuntimeError"].all
        (declaresName wholeFile)) = true := by
  decide

/-- C3: in each namespace copy the class-inheritance pairs are exactly
`CompileError`, `LinkError` and `RuntimeError` extending `Error`; every
extending class has an empty member list; and every interface `extends`
names another interface of the same copy. -/
theorem C3_error_classes :
    classInherits nsA =
      [("CompileError", "Error"), ("LinkError", "Error"), ("RuntimeError", "Error")] ∧
    classInherits nsB =
      [("CompileError", "Error"), ("LinkError", "Error"), ("RuntimeError", "Error")] ∧
    (wholeFile.all fun d =>
      match d with
      | .cls _ (some _) ms => ms.isEmpty
      | _ => true) = true ∧
    (ifaceInherits nsA).all (fun p => isIfaceName nsA p.2) = true ∧
    (ifaceInherits nsB).all (fun p => isIfaceName nsB p.2) = true := by
  decide

/-- C4: in both copies `MemoryDescriptor` has exactly the required numeric
field `initial` and the optional numeric field `maximum`; `TableDescriptor`
has exactly those two plus the required `element`; neither declares a
method; and the only declarations whose types mention a descriptor are the
`Memory` and `Table` constructors respectively. -/
theorem C4_descriptor_shapes :
    fieldsOf nsA "MemoryDescriptor" =
      [("initial", Ty.ref "number", false), ("maximum", Ty.ref "number", true)] ∧
    fieldsOf nsB "MemoryDescriptor" =
      [("initial", Ty.ref "number", false), ("maximum", Ty.ref "number", true)] ∧
    fieldsOf nsA "TableDescriptor" =
      [("initial", Ty.ref "number", false), ("maximum", Ty.ref "number", true),
       ("element", Ty.strLit "anyfunc", false)] ∧
    fieldsOf nsB "TableDescriptor" =
      [("initial", Ty.ref "number", false), ("maximum", Ty.ref "number", true),
       ("element", Ty.strLit "anyfunc", false)] ∧
    (findDecl nsA "MemoryDescriptor").map Decl.hasMethod = some false ∧
    (findDecl nsB "MemoryDescriptor").map Decl.hasMethod = some false ∧
    (findDecl nsA "TableDescriptor").map Decl.hasMethod = some false ∧
    (findDecl nsB "TableDescriptor").map Decl.hasMethod = some false ∧
    ctorsOf nsA "Memory" = [[⟨"memoryDescriptor", Ty.ref "MemoryDescriptor", false⟩]] ∧
    ctorsOf nsB "Memory" = [[⟨"memoryDescriptor", Ty.ref "MemoryDescriptor", false⟩]] ∧
    ctorsOf nsA "Table" = [[⟨"tableDescriptor", Ty.ref "TableDescriptor", false⟩]] ∧
    ctorsOf nsB "Table" = [[⟨"tableDescriptor", Ty.ref "TableDescriptor", false⟩]] ∧
    declsMentioning nsA "MemoryDescriptor" = ["Memory"] ∧
    declsMentioning nsB "MemoryDescriptor" = ["Memory"] ∧
    declsMentioning nsA "TableDescriptor" = ["Table"] ∧
    declsMentioning nsB "TableDescriptor" = ["Table"] := by
  decide

/-- C5: in both copies `ModuleExport` has exactly the string fields `name`
and `kind`; `ModuleImport` extends it adding only the string field `module`;
and the static `Module.customSections` returns `ArrayBuffer[]`. -/
theorem C5_module_metadata_shapes :
    fieldsOf nsA "ModuleExport" =
      [("name", Ty.ref "string", false), ("kind", Ty.ref "string", false)] ∧
    fieldsOf nsB "ModuleExport" =
      [("name", Ty.ref "string", false), ("kind", Ty.ref "string", false)] ∧
    (findDecl nsA "ModuleImport").map Decl.parentOf = some (some "ModuleExport") ∧
    (findDecl nsB "ModuleImport").map Decl.parentOf = some (some "ModuleExport") ∧
    (findDecl nsA "ModuleImport").map ownFields = some [("module", Ty.ref "string", false)] ∧
    (findDecl nsB "ModuleImport").map ownFields = some [("module", Ty.ref "string", false)] ∧
    fieldsOf nsA "ModuleImport" =
      [("name", Ty.ref "string", false), ("kind", Ty.ref "string", false),
       ("module", Ty.ref "string", false)] ∧
    fieldsOf nsB "ModuleImport" =
      [("name", Ty.ref "string", false), ("kind", Ty.ref "string", false),
       ("module", Ty.ref "string", false)] ∧
    methodsNamed nsA "Module" "customSections" =
      [Member.method true "customSections"
        [⟨"module", Ty.ref "Module", false⟩, ⟨"sectionName", Ty.ref "string", false⟩]
        (Ty.arr (Ty.ref "ArrayBuffer")) none] ∧
    methodsNamed nsB "Module" "customSections" =
      [Member.method true "customSections"
        [⟨"module", Ty.ref "Module", false⟩, ⟨"sectionName", Ty.ref "string", false⟩]
        (Ty.arr (Ty.ref "ArrayBuffer")) none] := by
  decide

/-- C6: `compile`, `instantiate`, `compileStreaming` and `instantiateStreaming`
are all declared in the file, and every declared signature for these names
(including both `instantiate` overloads, in both copies) returns a
`Promise<...>`. -/
theorem C6_async_functions_return_promises :
    declaresName wholeFile "compile" = true ∧
    declaresName wholeFile "instantiate" = true ∧
    declaresName wholeFile "compileStreaming" = true ∧
    declaresName wholeFile "instantiateStreaming" = true ∧
    (fnSigs wholeFile "compile").all (fun s => s.2.isPromise) = true ∧
    (fnSigs wholeFile "instantiate").all (fun s => s.2.isPromise) = true ∧
    (fnSigs wholeFile "compileStreaming").all (fun s => s.2.isPromise) = true ∧
    (fnSigs wholeFile "instantiateStreaming").all (fun s => s.2.isPromise) = true ∧
    (fnSigs wholeFile "compile").length = 2 ∧
    (fnSigs wholeFile "instantiate").length = 4 ∧
    (fnSigs wholeFile "compileStreaming").length = 1 ∧
    (fnSigs wholeFile "instantiateStreaming").length = 1 := by
  decide

/-- C7: in both copies the declared type of `TableDescriptor.element` is the
string literal type `"anyfunc"`, and consequently every value of the
declared interface has `element` equal to `"anyfunc"`. -/
theorem C7_element_always_anyfunc :
    ((fieldsOf nsA "TableDescriptor").find? (fun f => f.1 == "element")).map
      (fun f => f.2.1) = some (Ty.strLit "anyfunc") ∧
    ((fieldsOf nsB "TableDescriptor").find? (fun f => f.1 == "element")).map
      (fun f => f.2.1) = some (Ty.strLit "anyfunc") ∧
    ∀ v : TableDescriptorVal, v.element.val = "anyfunc" := by
  refine ⟨by decide, by decide, fun v => v.element.property⟩

/-- C8: both copies declare exactly one function `validate`, taking a binary
buffer source and returning plain `boolean`, not a `Promise`. -/
theorem C8_validate_sync_boolean :
    fnSigs nsA "validate" =
      [([⟨"bufferSource", Ty.ref "BufferSource", false⟩], Ty.ref "boolean")] ∧
    fnSigs nsB "validate" = [([⟨"bufferSource", abU8, false⟩], Ty.ref "boolean")] ∧
    (fnSigs wholeFile "validate").all (fun s => !(s.2.isPromise)) = true := by
  decide

/-- C9: both growth operations return the size before growing: `Memory.grow`
returns the previous page count and `Table.grow` the previous length, while
the new size is the old size plus the argument; both are declared with
numeric return type. -/
theorem C9_grow_returns_previous_size (m : MemoryState) (t : TableState) (n k : Nat) :
    (m.grow n).1 = m.pages ∧ (m.grow n).2.pages = m.pages + n ∧
    (t.grow k).1 = t.length ∧ (t.grow k).2.length = t.length + k ∧
    methodsNamed nsA "Memory" "grow" =
      [Member.method false "grow" [⟨"numPages", Ty.ref "number", false⟩]
        (Ty.ref "number") none] ∧
    methodsNamed nsA "Table" "grow" =
      [Member.method false "grow" [⟨"numElements", Ty.ref "number", false⟩]
        (Ty.ref "number") none] := by
  refine ⟨rfl, rfl, rfl, ?_, by decide, by decide⟩
  simp [TableState.grow, TableState.length]

/-- Auxiliary: reading any index of an all-`none` replicated list with
default `none` yields `none`. -/
theorem getD_replicate_none (n i : Nat) :
    (List.replicate n (none : Option Nat)).getD i none = none := by
  rcases Nat.lt_or_ge i n with h | h
  · rw [List.getD_eq_getElem _ _ (by simpa using h)]
    simp
  · exact List.getD_eq_default _ _ (by simpa using h)

/-- C10: unset table slots are `null`: the `AnyFunc` alias (first copy, the
cited declaration) admits `null`; `Table.get` returns `AnyFunc` and
`Table.set` accepts an `AnyFunc` value; in the modelled semantics a fresh
table is all-`null`, `get` can return `null` at any in-range index, and
`set` accepts `null`. -/
theorem C10_null_represents_unset :
    findDecl nsA "AnyFunc" =
      some (Decl.alias "AnyFunc" (Ty.union anyFnTy (Ty.ref "null"))) ∧
    methodsNamed nsA "Table" "get" =
      [Member.method false "get" [⟨"index", Ty.ref "number", false⟩]
        (Ty.ref "AnyFunc") none] ∧
    methodsNamed nsA "Table" "set" =
      [Member.method false "set"
        [⟨"index", Ty.ref "number", false⟩, ⟨"value", Ty.ref "AnyFunc", false⟩]
        (Ty.ref "void") none] ∧
    (∀ n : Nat, ((TableState.new n).elems.all (fun e => e == none)) = true) ∧
    (∀ i : Nat, ∃ t : TableState, i < t.length ∧ t.get i = none) ∧
    (∀ (t : TableState) (i : Nat), (t.set i none).length = t.length) := by
  refine ⟨by decide, by decide, by decide, ?_, ?_, ?_⟩
  · intro n
    simp only [TableState.new, List.all_eq_true]
    intro e he
    simp [List.eq_of_mem_replicate he]
  · intro i
    refine ⟨TableState.new (i + 1), ?_, ?_⟩
    · simp [TableState.new, TableState.length]
    · simp [TableState.get, TableState.new, getD_replicate_none]
  · intro t i
    simp [TableState.set, TableState.length]
